import Mathlib

/-!
Verification of the Krist server core (shallow embedding)

This file embeds the value-transfer, name-purchase, error-serialization and
session-handshake logic of the Krist server (`src/utils.js`,
`src/transactions.js`, `src/names.js`, `src/routes/websockets.js`,
`src/routes/work.js`) as executable Lean definitions, and proves or refutes
the specification's claims about them.

Data held by the persistence collaborator (sequelize rows) is modelled as
lists of records; an account row is identified by its `address` key, a
`decrement`/`increment` on a row is an update of the matching list entries.
External collaborators (the credential store's `useToken`, the
authentication check `addresses.verify`, `constants.nameCost`,
`krist.getWork`, the MOTD provider, the clock) are passed in as parameters,
matching the spec's "interfaces only" treatment of them.
-/

namespace Krist

/-- An account row (`schemas.address`): `address`, `balance`, `totalin`,
`totalout`, `firstseen`.  Balances are modelled as `Int` because the code
applies decrements unconditionally, so negative values are reachable. -/
structure Account where
  address : String
  firstseen : Nat
  balance : Int
  totalin : Int
  totalout : Int
deriving DecidableEq, Repr

/-- A transaction row (`schemas.transaction`): the fields passed to
`schemas.transaction.create` in `Transactions.createTransaction`.
`to` and `from` are Lean keywords, hence `to_` and `from_`. -/
structure Transaction where
  to_ : String
  from_ : String
  value : Int
  name : Option String
  time : Nat
  op : Option String
deriving DecidableEq, Repr

/-- The ledger-side state: the account table, the transaction table, and the
trace of webhook notifications (`webhooks.callTransactionWebhooks`). -/
structure LedgerState where
  accounts : List Account
  transactions : List Transaction
  webhookCalls : List Transaction
deriving DecidableEq, Repr

/-- `addresses.getAddress(addr)`: look up the account row keyed by `addr`. -/
def getAddress (accounts : List Account) (addr : String) : Option Account :=
  accounts.find? (fun a => a.address == addr)

/-- Apply a row mutation (`row.increment` / `row.decrement`) to the account
row keyed by `key`. -/
def updateAccount (accounts : List Account) (key : String) (f : Account → Account) :
    List Account :=
  accounts.map (fun a => if a.address == key then f a else a)

/-- `Transactions.createTransaction(to, from, value, name, op)`: create the
transaction row with `time = now`, notify the transaction webhooks, and
return the row.  It touches no account. -/
def createTransaction (st : LedgerState) (to_ from_ : String) (value : Int)
    (name : Option String) (op : Option String) (now : Nat) :
    LedgerState × Transaction :=
  let tx : Transaction :=
    { to_ := to_, from_ := from_, value := value, name := name, time := now, op := op }
  ({ st with
      transactions := st.transactions ++ [tx]
      webhookCalls := st.webhookCalls ++ [tx] }, tx)

/-- The sender-side mutation of `Transactions.pushTransaction`:
`sender.decrement({ balance: amount })` and
`sender.increment({ totalout: amount })`. -/
def debitSender (amount : Int) (a : Account) : Account :=
  { a with balance := a.balance - amount, totalout := a.totalout + amount }

/-- The existing-recipient mutation of `Transactions.pushTransaction`:
`recipient.increment({ balance: amount, totalout: amount })`.
(The source really increments `totalout`, not `totalin`.) -/
def creditRecipient (amount : Int) (a : Account) : Account :=
  { a with balance := a.balance + amount, totalout := a.totalout + amount }

/-- The row created by `pushTransaction` when no recipient account exists:
`schemas.address.create({address: recipientAddress.toLowerCase(),
firstseen: new Date(), balance: amount, totalin: amount, totalout: 0})`. -/
def newRecipient (recipientAddress : String) (amount : Int) (now : Nat) : Account :=
  { address := recipientAddress.toLower, firstseen := now,
    balance := amount, totalin := amount, totalout := 0 }

/-- `Transactions.pushTransaction(sender, recipientAddress, amount, metadata)`:
look up the recipient, unconditionally debit the sender's `balance` and
credit its `totalout`, create the transaction record
`(to := recipientAddress, from := sender.address, value := amount,
name := null, op := metadata)`, and either create a fresh recipient row or
increment the existing one.  The source performs no validation of `amount`
against the sender's balance; the promise resolves with the created
transaction record. -/
def pushTransaction (st : LedgerState) (sender : Account) (recipientAddress : String)
    (amount : Int) (metadata : Option String) (now : Nat) : LedgerState :=
  match getAddress st.accounts recipientAddress with
  | none =>
      let st1 := (createTransaction
        { st with accounts := updateAccount st.accounts sender.address (debitSender amount) }
        recipientAddress sender.address amount none metadata now).1
      { st1 with accounts := st1.accounts ++ [newRecipient recipientAddress amount now] }
  | some _ =>
      let st1 := (createTransaction
        { st with accounts := updateAccount st.accounts sender.address (debitSender amount) }
        recipientAddress sender.address amount none metadata now).1
      { st1 with accounts := updateAccount st1.accounts recipientAddress (creditRecipient amount) }

/-- The balance of the account row keyed by `addr` (0 when no row exists). -/
def balanceOf (st : LedgerState) (addr : String) : Int :=
  match getAddress st.accounts addr with
  | some a => a.balance
  | none => 0

/-- The `totalin` of the account row keyed by `addr` (0 when no row exists). -/
def totalInOf (st : LedgerState) (addr : String) : Int :=
  match getAddress st.accounts addr with
  | some a => a.totalin
  | none => 0

/-- The `totalout` of the account row keyed by `addr` (0 when no row exists). -/
def totalOutOf (st : LedgerState) (addr : String) : Int :=
  match getAddress st.accounts addr with
  | some a => a.totalout
  | none => 0

/-! ## Helper lemmas about lookups and row updates -/

/-- `find?` commutes with a `map` whose function preserves the predicate. -/
theorem find?_map_of_pred (p : Account → Bool) (g : Account → Account)
    (hg : ∀ a, p (g a) = p a) (l : List Account) :
    (l.map g).find? p = (l.find? p).map g := by
  induction l with
  | nil => rfl
  | cons a l ih =>
    by_cases h : p a = true
    · rw [List.map_cons, List.find?_cons_of_pos _ (by rw [hg]; exact h),
        List.find?_cons_of_pos _ h]
      rfl
    · rw [List.map_cons, List.find?_cons_of_neg _ (by rw [hg]; simpa using h),
        List.find?_cons_of_neg _ (by simpa using h), ih]

/-- Looking up after a keyed row update: the looked-up row is transformed
exactly when it carries the update key (for address-preserving mutations). -/
theorem getAddress_updateAccount (l : List Account) (key addr : String)
    (f : Account → Account) (hf : ∀ a, (f a).address = a.address) :
    getAddress (updateAccount l key f) addr =
      (getAddress l addr).map (fun a => if a.address == key then f a else a) := by
  unfold getAddress updateAccount
  apply find?_map_of_pred
  intro a
  by_cases h : a.address == key
  · simp [h, hf]
  · simp [h]

theorem debitSender_address (v : Int) (a : Account) :
    (debitSender v a).address = a.address := rfl

theorem creditRecipient_address (v : Int) (a : Account) :
    (creditRecipient v a).address = a.address := rfl

/-- `createTransaction` leaves the account table untouched. -/
theorem createTransaction_accounts (st : LedgerState) (to_ from_ : String)
    (value : Int) (name op : Option String) (now : Nat) :
    (createTransaction st to_ from_ value name op now).1.accounts = st.accounts := rfl

/-- The account table after a `pushTransaction` whose recipient row exists:
first the sender debit, then the recipient credit. -/
theorem pushTransaction_accounts_existing (st : LedgerState) (sender : Account)
    (rAddr : String) (v : Int) (md : Option String) (now : Nat) (r : Account)
    (hr : getAddress st.accounts rAddr = some r) :
    (pushTransaction st sender rAddr v md now).accounts =
      updateAccount (updateAccount st.accounts sender.address (debitSender v))
        rAddr (creditRecipient v) := by
  unfold pushTransaction
  rw [hr]
  rfl

/-- After the sender debit and the recipient credit, looking up the sender
(distinct from the recipient) yields the debited sender row. -/
theorem getAddress_after_existing_sender (st : LedgerState) (sender recB : Account)
    (v : Int) (md : Option String) (now : Nat)
    (hs : getAddress st.accounts sender.address = some sender)
    (hr : getAddress st.accounts recB.address = some recB)
    (hne : sender.address ≠ recB.address) :
    getAddress (pushTransaction st sender recB.address v md now).accounts sender.address
      = some (debitSender v sender) := by
  rw [pushTransaction_accounts_existing st sender recB.address v md now recB hr,
    getAddress_updateAccount _ _ _ _ (creditRecipient_address v),
    getAddress_updateAccount _ _ _ _ (debitSender_address v), hs]
  simp [debitSender, hne]

/-- After the sender debit and the recipient credit, looking up the recipient
(distinct from the sender) yields the credited recipient row. -/
theorem getAddress_after_existing_recipient (st : LedgerState) (sender recB : Account)
    (v : Int) (md : Option String) (now : Nat)
    (hr : getAddress st.accounts recB.address = some recB)
    (hne : sender.address ≠ recB.address) :
    getAddress (pushTransaction st sender recB.address v md now).accounts recB.address
      = some (creditRecipient v recB) := by
  rw [pushTransaction_accounts_existing st sender recB.address v md now recB hr,
    getAddress_updateAccount _ _ _ _ (creditRecipient_address v),
    getAddress_updateAccount _ _ _ _ (debitSender_address v), hr]
  simp [Ne.symm hne]

/-- C2: for distinct existing accounts `A` (the sender row) and `B` (the
recipient row) and any amount `v` with `0 < v ≤ balance(A)`,
`pushTransaction` decreases `balance(A)` by exactly `v`, increases
`balance(B)` by exactly `v`, and preserves `balance(A) + balance(B)`. -/
theorem pushTransaction_value_conservation (st : LedgerState) (sender recB : Account)
    (v : Int) (md : Option String) (now : Nat)
    (hs : getAddress st.accounts sender.address = some sender)
    (hr : getAddress st.accounts recB.address = some recB)
    (hne : sender.address ≠ recB.address)
    (_hv : 0 < v) (_hb : v ≤ sender.balance) :
    balanceOf (pushTransaction st sender recB.address v md now) sender.address
        = balanceOf st sender.address - v ∧
      balanceOf (pushTransaction st sender recB.address v md now) recB.address
        = balanceOf st recB.address + v ∧
      balanceOf (pushTransaction st sender recB.address v md now) sender.address
          + balanceOf (pushTransaction st sender recB.address v md now) recB.address
        = balanceOf st sender.address + balanceOf st recB.address := by
  have e1 : balanceOf (pushTransaction st sender recB.address v md now) sender.address
      = sender.balance - v := by
    unfold balanceOf
    rw [getAddress_after_existing_sender st sender recB v md now hs hr hne]
    rfl
  have e2 : balanceOf (pushTransaction st sender recB.address v md now) recB.address
      = recB.balance + v := by
    unfold balanceOf
    rw [getAddress_after_existing_recipient st sender recB v md now hr hne]
    rfl
  have e0s : balanceOf st sender.address = sender.balance := by
    unfold balanceOf; rw [hs]
  have e0r : balanceOf st recB.address = recB.balance := by
    unfold balanceOf; rw [hr]
  refine ⟨by rw [e1, e0s], by rw [e2, e0r], by rw [e1, e2, e0s, e0r]; ring⟩

/-- A concrete sender row used to evaluate the transfer engine. -/
def accA : Account :=
  { address := "a", firstseen := 0, balance := 10, totalin := 0, totalout := 0 }

/-- A concrete recipient row used to evaluate the transfer engine. -/
def accB : Account :=
  { address := "b", firstseen := 0, balance := 5, totalin := 1, totalout := 2 }

/-- A concrete two-account ledger used to evaluate the transfer engine. -/
def stAB : LedgerState :=
  { accounts := [accA, accB], transactions := [], webhookCalls := [] }

/-- Witness for C2 at a concrete input: transfer 3 from `"a"` (balance 10)
to `"b"` (balance 5). -/
theorem pushTransaction_value_conservation_witness :
    balanceOf (pushTransaction stAB accA "b" 3 none 7) "a" = balanceOf stAB "a" - 3 ∧
      balanceOf (pushTransaction stAB accA "b" 3 none 7) "b" = balanceOf stAB "b" + 3 ∧
      balanceOf (pushTransaction stAB accA "b" 3 none 7) "a"
          + balanceOf (pushTransaction stAB accA "b" 3 none 7) "b"
        = balanceOf stAB "a" + balanceOf stAB "b" :=
  pushTransaction_value_conservation stAB accA accB 3 none 7
    (by decide) (by decide) (by decide) (by decide) (by decide)

/-- C1 (evaluation of the code at a failing input): `pushTransaction`
performs no `amount ≤ balance` validation.  With sender balance 10 and
amount 25 the debit still happens: the sender's balance becomes −15 and the
recipient's becomes 30, and no `InsufficientFunds` failure exists anywhere
in the operation (it is a total function on the ledger state). -/
theorem pushTransaction_no_insufficient_funds_check :
    balanceOf (pushTransaction stAB accA "b" 25 none 7) "a" = -15 ∧
      balanceOf (pushTransaction stAB accA "b" 25 none 7) "b" = 30 := by decide

/-- C3 (evaluation of the code at a failing input): for an existing
recipient, `pushTransaction` runs
`recipient.increment({ balance: amount, totalout: amount })`, crediting the
recipient's `totalout` instead of its `totalin`.  Transferring 3 to `"b"`
(which starts with `totalin = 1`, `totalout = 2`) leaves `totalin` at 1 and
moves `totalout` to 5; the claim requires `totalin = 4`, `totalout = 2`. -/
theorem pushTransaction_recipient_totalin_bug :
    totalInOf (pushTransaction stAB accA "b" 3 none 7) "b" = 1 ∧
      totalOutOf (pushTransaction stAB accA "b" 3 none 7) "b" = 5 := by decide

/-! ## Error serialization (`Utils.errorToJSON`, `Utils.sendErrorToRes`) -/

/-- JS truthiness of an optional string: `undefined` and `""` are falsy. -/
def jsTruthyStr : Option String → Bool
  | none => false
  | some s => s != ""

/-- A `KristError` instance (`errors.KristError`): the constructor stores
`message`, an `errorString` marker, a `statusCode` and an `info` object
(modelled as a key/value list; the constructor default is `{}`, i.e. `[]`). -/
structure KristError where
  message : Option String
  errorString : String
  statusCode : Nat
  info : List (String × String)
deriving DecidableEq, Repr

/-- A JS runtime failure raised while evaluating a function body, such as
reading an undeclared identifier. -/
inductive JsRuntimeError where
  | referenceError (ident : String)
deriving DecidableEq, Repr

/-- The value handed to `Utils.errorToJSON`: either an instance of
`errors.KristError` or any other (unrecognized) error value. -/
inductive JsErrorValue where
  | kristError (e : KristError)
  | otherError (stack : String)
deriving DecidableEq, Repr

/-- The JSON object built by `Utils.errorToJSON`:
`{ ok: false, error: ..., message?, ...info }`. -/
structure ErrorJSONOut where
  ok : Bool
  error : String
  message : Option String
  info : List (String × String)
deriving DecidableEq, Repr

/-- `Utils.errorToJSON(error)`.  For a `KristError` it builds
`{ ok: false, error: error.errorString }` and then, when `error.message` is
truthy, executes `out.message = message;` — the right-hand side reads the
undeclared identifier `message` (not `error.message`), which in JS raises a
`ReferenceError`; this run-time failure is modelled as `Except.error`.
When `error.message` is falsy it copies the own properties of `error.info`
into the object.  For any non-`KristError` value it logs server-side and
returns exactly `{ ok: false, error: 'server_error' }`. -/
def errorToJSON : JsErrorValue → Except JsRuntimeError ErrorJSONOut
  | JsErrorValue.kristError e =>
      if jsTruthyStr e.message then
        Except.error (JsRuntimeError.referenceError "message")
      else
        Except.ok { ok := false, error := e.errorString, message := none, info := e.info }
  | JsErrorValue.otherError _ =>
      Except.ok { ok := false, error := "server_error", message := none, info := [] }

/-- C4 (evaluation of the code at a failing input): serializing a
`KristError` that carries a message raises a `ReferenceError` (the body
assigns the undeclared identifier `message`), so `errorToJSON` is not
total on recognized errors with messages; an unrecognized error is
serialized to exactly `{ ok: false, error: 'server_error' }`. -/
theorem errorToJSON_message_reference_error :
    errorToJSON (JsErrorValue.kristError
        { message := some "Invalid parameter", errorString := "invalid_parameter",
          statusCode := 400, info := [] })
      = Except.error (JsRuntimeError.referenceError "message") ∧
      errorToJSON (JsErrorValue.otherError "stack")
        = Except.ok { ok := false, error := "server_error", message := none, info := [] } :=
  ⟨by rfl, rfl⟩

/-- JS `x || d` on an optional number: `undefined` and `0` fall back to `d`. -/
def jsOrNat (x : Option Nat) (d : Nat) : Nat :=
  match x with
  | some n => if n = 0 then d else n
  | none => d

/-- The HTTP status chosen by `Utils.sendErrorToRes(req, res, error)`:
`errorCode = error.statusCode || 500`, overridden to `200` whenever
`req.query.cc !== 'undefined'` (in particular whenever no `cc` query
parameter is supplied at all, since then `req.query.cc` is the value
`undefined`, not the string).  The response body is `errorToJSON error`. -/
def sendErrorToRes (cc : Option String) (statusCode : Option Nat) : Nat :=
  if cc ≠ some "undefined" then 200 else jsOrNat statusCode 500

/-- C10: `sendErrorToRes` responds with status 200 whenever the `cc` query
parameter differs from the literal string `"undefined"` (including when it
is absent), and uses the error's own `statusCode` (defaulting to 500 when
the error has none) only when `cc` equals that literal string. -/
theorem sendErrorToRes_cc_status (cc : Option String) (statusCode : Option Nat) :
    (cc ≠ some "undefined" → sendErrorToRes cc statusCode = 200) ∧
      (cc = some "undefined" →
        (statusCode = none → sendErrorToRes cc statusCode = 500) ∧
          ∀ n, statusCode = some n → 0 < n → sendErrorToRes cc statusCode = n) := by
  constructor
  · intro h
    unfold sendErrorToRes
    rw [if_pos h]
  · intro h
    have hcc : ¬cc ≠ some "undefined" := fun hn => hn h
    constructor
    · intro hn
      unfold sendErrorToRes
      rw [if_neg hcc, hn]
      rfl
    · intro n hn hpos
      unfold sendErrorToRes
      rw [if_neg hcc, hn]
      simp [jsOrNat, Nat.pos_iff_ne_zero.mp hpos]

/-- Witness for C10: with no `cc` parameter the status is 200 even for a
404-status error; with `cc = "undefined"` the status is the error's 404. -/
theorem sendErrorToRes_cc_status_witness :
    ((none : Option String) ≠ some "undefined" ∧ sendErrorToRes none (some 404) = 200) ∧
      sendErrorToRes (some "undefined") (some 404) = 404 :=
  ⟨⟨by decide, (sendErrorToRes_cc_status none (some 404)).1 (by decide)⟩,
    ((sendErrorToRes_cc_status (some "undefined") (some 404)).2 rfl).2 404 rfl (by decide)⟩

/-! ## Name purchase (`Names.createName`) -/

/-- A name row (`schemas.name`): the fields passed to `schemas.name.create`
plus the `a` record field (not set at creation time, hence optional). -/
structure NameRecord where
  name : String
  owner : String
  original_owner : String
  registered : Nat
  updated : Nat
  transferred : Option Nat
  a : Option String
  unpaid : Int
deriving DecidableEq, Repr

/-- The object built by `Names.nameToJSON`.  (`transferred || null` and
`unpaid || 0` are identities here: an absent `transferred` is `none`, and
`0 || 0` is `0`.) -/
structure NameJSON where
  name : String
  owner : String
  original_owner : String
  registered : Nat
  updated : Nat
  transferred : Option Nat
  a : Option String
  unpaid : Int
deriving DecidableEq, Repr

/-- `Names.nameToJSON(name)`. -/
def nameToJSON (n : NameRecord) : NameJSON :=
  { name := n.name, owner := n.owner, original_owner := n.original_owner,
    registered := n.registered, updated := n.updated,
    transferred := n.transferred, a := n.a, unpaid := n.unpaid }

/-- The event broadcast by `Names.createName`:
`{ type: "event", event: "name", name: nameToJSON(dbName) }`. -/
structure NameEvent where
  type : String
  event : String
  name : NameJSON
deriving DecidableEq, Repr

/-- The name-subsystem state: the name table and the trace of
`websockets.broadcastEvent` calls. -/
structure NamesState where
  names : List NameRecord
  broadcasts : List NameEvent
deriving DecidableEq, Repr

/-- `Names.createName(name, owner)`: create the row with
`original_owner = owner`, `registered = updated = now`,
`transferred = null` and `unpaid = Names.getNameCost()` (the configured
`constants.nameCost`, passed in as `nameCost`), broadcast the `name` event
carrying `nameToJSON(dbName)`, and return the row. -/
def createName (st : NamesState) (name owner : String) (nameCost : Int) (now : Nat) :
    NamesState × NameRecord :=
  let dbName : NameRecord :=
    { name := name, owner := owner, original_owner := owner,
      registered := now, updated := now, transferred := none, a := none,
      unpaid := nameCost }
  ({ names := st.names ++ [dbName],
     broadcasts := st.broadcasts
       ++ [{ type := "event", event := "name", name := nameToJSON dbName }] },
   dbName)

/-- C5: a successful name purchase creates a record with `unpaid` equal to
the configured registration cost, `owner` and `original_owner` equal to the
purchaser, and `transferred` null; it broadcasts a `name` event carrying
the record and returns the record. -/
theorem createName_spec (st : NamesState) (n o : String) (cost : Int) (now : Nat) :
    (createName st n o cost now).2.unpaid = cost ∧
      (createName st n o cost now).2.owner = o ∧
      (createName st n o cost now).2.original_owner = o ∧
      (createName st n o cost now).2.transferred = none ∧
      (createName st n o cost now).1.broadcasts
        = st.broadcasts
            ++ [{ type := "event", event := "name",
                  name := nameToJSON (createName st n o cost now).2 }] ∧
      (createName st n o cost now).1.names = st.names ++ [(createName st n o cost now).2] :=
  ⟨rfl, rfl, rfl, rfl, rfl, rfl⟩

/-! ## Websocket routes (`/ws/start` and `/:token`) -/

/-- The error kinds relevant to the websocket routes. -/
inductive KristErrorKind where
  | authFailed
  | tokenNotFound
deriving DecidableEq, Repr

/-- The body sent by `POST /ws/start`: either
`{ ok: true, url, expires: 30 }` or the serialized error. -/
inductive WsStartResponse where
  | ok (url : String) (expires : Nat)
  | err (e : KristErrorKind)
deriving DecidableEq, Repr

/-- The outcome of `POST /ws/start`: the response body and the list of
tokens obtained from `websockets.obtainToken` during the request. -/
structure WsStartOutcome where
  response : WsStartResponse
  issuedTokens : List String
deriving DecidableEq, Repr

/-- The `POST /ws/start` handler.  `privatekey` is the request-body
parameter (`if (privatekey)` is a JS truthiness test); `authed` is the
verdict of the external `addresses.verify` collaborator for that key;
`token` is the token the external `websockets.obtainToken` returns
(obtained for the verified address in the authenticated branch and for
`"guest"` otherwise). -/
def wsStart (privatekey : Option String) (urlBase : String) (token : String)
    (authed : Bool) : WsStartOutcome :=
  if jsTruthyStr privatekey then
    if authed then
      { response := WsStartResponse.ok (urlBase ++ token) 30, issuedTokens := [token] }
    else
      { response := WsStartResponse.err KristErrorKind.authFailed, issuedTokens := [] }
  else
    { response := WsStartResponse.ok (urlBase ++ token) 30, issuedTokens := [token] }

/-- C6: with no (truthy) secret supplied, or with a secret that
authenticates, `/ws/start` responds `{ ok: true, url: urlBase ++ token,
expires: 30 }`; with a secret that fails authentication it responds with
the `AuthFailed` error body and obtains no token. -/
theorem wsStart_spec (pk : Option String) (urlBase token : String) (authed : Bool) :
    (jsTruthyStr pk = false →
        wsStart pk urlBase token authed
          = { response := WsStartResponse.ok (urlBase ++ token) 30,
              issuedTokens := [token] }) ∧
      (jsTruthyStr pk = true → authed = true →
        wsStart pk urlBase token authed
          = { response := WsStartResponse.ok (urlBase ++ token) 30,
              issuedTokens := [token] }) ∧
      (jsTruthyStr pk = true → authed = false →
        (wsStart pk urlBase token authed).response
            = WsStartResponse.err KristErrorKind.authFailed ∧
          (wsStart pk urlBase token authed).issuedTokens = []) := by
  refine ⟨fun h => by simp [wsStart, h], fun h ha => by simp [wsStart, h, ha],
    fun h ha => by simp [wsStart, h, ha]⟩

/-- Witness for C6: a supplied secret that fails authentication yields the
`AuthFailed` error body and an empty list of obtained tokens. -/
theorem wsStart_spec_witness :
    jsTruthyStr (some "abc") = true ∧
      (wsStart (some "abc") "wss://k/" "tok" false).response
          = WsStartResponse.err KristErrorKind.authFailed ∧
        (wsStart (some "abc") "wss://k/" "tok" false).issuedTokens = [] :=
  ⟨by decide, (wsStart_spec (some "abc") "wss://k/" "tok" false).2.2 (by decide) rfl⟩

/-- The MOTD snapshot spread into the hello message
(`await motd.getDetailedMOTD()`), opaque here. -/
structure MotdSnapshot where
  motd : String
deriving DecidableEq, Repr

/-- The unsolicited message sent on successful connection:
`{ ok: true, type: "hello", ...motd }`. -/
structure HelloMessage where
  ok : Bool
  type : String
  motd : MotdSnapshot
deriving DecidableEq, Repr

/-- The externally observable actions of the `app.ws("/:token")` handler. -/
inductive WSAction where
  | addWebsocket (token address : String)
  | send (msg : HelloMessage)
  | sendError (e : KristErrorKind)
  | close
  | removeWebsocket (token : String)
deriving DecidableEq, Repr

/-- The `app.ws("/:token")` connection handler, as the ordered list of
actions it performs.  `useToken` is the outcome of the external
`websockets.useToken(token)` (the credential-store consumption), which on
success yields the token's `{ address, privatekey }` and otherwise throws;
`wsOpen` is whether `ws.readyState === ws.OPEN` in the catch branch. -/
def wsConnectionHandler (token : String)
    (useToken : Except KristErrorKind (String × Option String))
    (motd : MotdSnapshot) (wsOpen : Bool) : List WSAction :=
  match useToken with
  | Except.ok (address, _pk) =>
      [WSAction.addWebsocket token address,
       WSAction.send { ok := true, type := "hello", motd := motd }]
  | Except.error e =>
      if wsOpen then [WSAction.sendError e, WSAction.close]
      else [WSAction.removeWebsocket token]

/-- C7: when token consumption succeeds the handler registers the
connection and immediately sends the hello message carrying the MOTD
snapshot, with no earlier server-initiated message; when consumption fails
the handler performs no registration, and (on an open socket) sends the
same error to the client. -/
theorem wsConnectionHandler_spec (token : String)
    (res : Except KristErrorKind (String × Option String))
    (motd : MotdSnapshot) (wsOpen : Bool) :
    (∀ address pk, res = Except.ok (address, pk) →
        wsConnectionHandler token res motd wsOpen
          = [WSAction.addWebsocket token address,
             WSAction.send { ok := true, type := "hello", motd := motd }]) ∧
      (∀ e, res = Except.error e →
        (∀ t a, WSAction.addWebsocket t a ∉ wsConnectionHandler token res motd wsOpen) ∧
          (wsOpen = true →
            wsConnectionHandler token res motd wsOpen
              = [WSAction.sendError e, WSAction.close])) := by
  constructor
  · intro address pk h
    simp [wsConnectionHandler, h]
  · intro e h
    constructor
    · intro t a
      cases hw : wsOpen <;> simp [wsConnectionHandler, h, hw]
    · intro hw
      simp [wsConnectionHandler, h, hw]

/-- Witness for C7: a successful consumption registers the connection and
sends the hello message. -/
theorem wsConnectionHandler_spec_witness :
    wsConnectionHandler "tok" (Except.ok ("kaddr", none)) { motd := "hi" } true
        = [WSAction.addWebsocket "tok" "kaddr",
           WSAction.send { ok := true, type := "hello", motd := { motd := "hi" } }] :=
  (wsConnectionHandler_spec "tok" (Except.ok ("kaddr", none)) { motd := "hi" } true).1
    "kaddr" none rfl

/-- C8: `createTransaction(to, from, value, name, op)` creates a record
with exactly those fields and `time = now`, notifies the webhook
collaborator with that record, and leaves the `balance`, `totalin` and
`totalout` of every account unchanged. -/
theorem createTransaction_spec (st : LedgerState) (to_ from_ : String) (value : Int)
    (name op : Option String) (now : Nat) :
    (createTransaction st to_ from_ value name op now).2
        = { to_ := to_, from_ := from_, value := value, name := name,
            time := now, op := op } ∧
      (createTransaction st to_ from_ value name op now).1.webhookCalls
        = st.webhookCalls ++ [(createTransaction st to_ from_ value name op now).2] ∧
      (createTransaction st to_ from_ value name op now).1.transactions
        = st.transactions ++ [(createTransaction st to_ from_ value name op now).2] ∧
      (createTransaction st to_ from_ value name op now).1.accounts = st.accounts ∧
      ∀ addr,
        balanceOf (createTransaction st to_ from_ value name op now).1 addr
            = balanceOf st addr ∧
          totalInOf (createTransaction st to_ from_ value name op now).1 addr
            = totalInOf st addr ∧
          totalOutOf (createTransaction st to_ from_ value name op now).1 addr
            = totalOutOf st addr :=
  ⟨rfl, rfl, rfl, rfl, fun _ => ⟨rfl, rfl, rfl⟩⟩

/-! ## Work route (`GET /work`) -/

/-- The state holding the current difficulty as served by the external
`krist.getWork()` collaborator. -/
structure KristState where
  work : Int
deriving DecidableEq, Repr

/-- `krist.getWork()`: read the current difficulty. -/
def getWork (st : KristState) : Int := st.work

/-- The body sent by `GET /work`. -/
structure WorkResponse where
  ok : Bool
  work : Int
deriving DecidableEq, Repr

/-- The `GET /work` handler: respond `{ ok: true, work: krist.getWork() }`
and leave the state untouched. -/
def workRoute (st : KristState) : WorkResponse × KristState :=
  ({ ok := true, work := getWork st }, st)

/-- C9: the work endpoint responds exactly `{ ok: true, work: w }` with `w`
the unmodified current difficulty, and mutates no state. -/
theorem workRoute_spec (st : KristState) :
    workRoute st = ({ ok := true, work := st.work }, st) := rfl

end Krist
